import Mathlib

/-
Shallow embedding of the profile-management web form
(src/project/src/components/UserForm.tsx, ViewProfile.tsx, src/types.ts).

The component state (profile draft, isEditing, error, avatarFile) is a
record; the external services (identity provider, profile store, object
store) are an environment of pure response functions plus an explicit
store state; each handler is a state-transition function that also emits
the ordered list of external calls it performs.
-/

namespace WebForm

/-- JavaScript-style String.prototype.split with a one-character separator,
modelled structurally on the character list: splitting the empty string
yields one empty segment, and a trailing separator yields a trailing empty
segment, exactly as in JS. -/
def splitOnCharAux (sep : Char) : List Char → List (List Char)
  | [] => [[]]
  | c :: rest =>
    if c = sep then [] :: splitOnCharAux sep rest
    else
      match splitOnCharAux sep rest with
      | [] => [[c]]
      | seg :: segs => (c :: seg) :: segs

/-- String-level wrapper for the JS split-on-one-character operation. -/
def jsSplit (sep : Char) (s : String) : List String :=
  (splitOnCharAux sep s.toList).map String.mk

/-- JavaScript String.prototype.trim, restricted to the ASCII whitespace
characters that Char.isWhitespace recognises (space, tab, CR, LF); the
inputs appearing in this development are ASCII. -/
def jsTrim (s : String) : String :=
  String.mk (((s.toList.dropWhile Char.isWhitespace).reverse.dropWhile
    Char.isWhitespace).reverse)

/-- UserForm.tsx line 109: value.split(',').map(hobby => hobby.trim()). -/
def splitHobbies (value : String) : List String :=
  (jsSplit ',' value).map jsTrim

/-- UserForm.tsx line 54: file.name.split('.').pop(). JS pop on the result
of split never sees an empty array, so the default is unreachable. -/
def fileExt (name : String) : String :=
  (jsSplit '.' name).getLastD ""

/-- UserForm.tsx line 55: the storage path of the avatar object,
a template literal over the owner id and the file extension. -/
def avatarPath (uid : String) (fileName : String) : String :=
  uid ++ "/avatar." ++ fileExt fileName

/-- The UserProfile entity of src/types.ts. Optional text fields are
initialised to the empty string by the form and modelled as String;
avatar_url is Option String because the submit path can write the JS
null there (handleAvatarUpload returns null when no user resolves). -/
structure UserProfile where
  id : String
  first_name : String
  last_name : String
  date_of_birth : String
  country : String
  religion : String
  blood_group : String
  marital_status : String
  institution : String
  hobbies : List String
  avatar_url : Option String
deriving DecidableEq, Repr

/-- A pending avatar file: its name (carrying the extension) and bytes. -/
structure AvatarFile where
  name : String
  content : String
deriving DecidableEq, Repr

/-- The React component state of UserForm (lines 8 to 23). -/
structure FormState where
  profile : UserProfile
  isEditing : Bool
  error : String
  avatarFile : Option AvatarFile
deriving DecidableEq, Repr

/-- The initial profile draft of UserForm.tsx lines 8 to 20: every text
field empty, hobbies the empty list, avatar_url the empty string. -/
def initialProfile : UserProfile :=
  { id := "", first_name := "", last_name := "", date_of_birth := ""
  , country := "", religion := "", blood_group := "", marital_status := ""
  , institution := "", hobbies := [], avatar_url := some "" }

/-- The initial component state: default draft, edit mode on, no error,
no pending avatar file (UserForm.tsx lines 8 to 23). -/
def initialState : FormState :=
  { profile := initialProfile, isEditing := true, error := ""
  , avatarFile := none }

/-- The external backend state: the profiles table keyed by owner id and
the avatars bucket keyed by object path. -/
structure DB where
  profiles : List (String × UserProfile)
  objects : List (String × String)
deriving DecidableEq, Repr

/-- Fetch-one-row-by-owner-id, the select single of loadProfile; none
models the NotFound error raised by .single() when no row exists. -/
def fetchOne (ps : List (String × UserProfile)) (ownerId : String) :
    Option UserProfile :=
  (ps.find? (fun p => p.1 == ownerId)).map (fun p => p.2)

/-- Insert-or-replace keyed by the row id: the upsert-by-primary-key
semantics of the external store. -/
def upsertRow (ps : List (String × UserProfile)) (row : UserProfile) :
    List (String × UserProfile) :=
  (row.id, row) :: ps.filter (fun p => p.1 != row.id)

/-- Object-store upload with upsert true: overwrite the object at the
path if present, create it otherwise. -/
def uploadObject (objs : List (String × String)) (path content : String) :
    List (String × String) :=
  (path, content) :: objs.filter (fun p => p.1 != path)

/-- The environment of external-service responses during one handler run:
the resolved user (supabase.auth.getUser), the public URL resolver
(always succeeds), and fault injections for the storage upload and the
profiles upsert (some msg is a failure carrying its message). -/
structure Env where
  user : Option String
  publicUrl : String → String
  uploadError : String → AvatarFile → Option String
  upsertError : UserProfile → Option String

/-- One external call performed by a handler, in order of occurrence. -/
inductive Call where
  | getUser
  | profilesFetch (ownerId : String)
  | profilesUpsert (row : UserProfile)
  | storageUpload (path : String)
  | storageGetPublicUrl (path : String)
deriving DecidableEq, Repr

/-- UserForm.tsx loadProfile (lines 29 to 48): resolve the user (return
unchanged if none), fetch the row by id; on any fetch error, including
NotFound, log and return unchanged; on success replace the draft with the
row and leave edit mode. -/
def loadProfile (env : Env) (db : DB) (s : FormState) :
    FormState × List Call :=
  match env.user with
  | none => (s, [Call.getUser])
  | some uid =>
    match fetchOne db.profiles uid with
    | none => (s, [Call.getUser, Call.profilesFetch uid])
    | some row =>
      ({ s with profile := row, isEditing := false },
       [Call.getUser, Call.profilesFetch uid])

/-- Outcome of handleAvatarUpload: null when no user resolves, a thrown
upload error, or the resolved public URL together with the path used. -/
inductive UploadOutcome where
  | noUser
  | failed (msg : String)
  | ok (url : String) (path : String)
deriving DecidableEq, Repr

/-- UserForm.tsx handleAvatarUpload (lines 50 to 70): resolve the user
(null if none), build the path from the owner id and the file extension,
upload with upsert true (throwing on error), then resolve the public URL. -/
def handleAvatarUpload (env : Env) (file : AvatarFile) : UploadOutcome :=
  match env.user with
  | none => UploadOutcome.noUser
  | some uid =>
    let path := avatarPath uid file.name
    match env.uploadError path file with
    | some msg => UploadOutcome.failed msg
    | none => UploadOutcome.ok (env.publicUrl path) path

/-- The tail of handleSubmit (lines 85 to 96): upsert the merged row; on
failure set the error message; on success leave edit mode and re-run
loadProfile against the updated store. -/
def upsertAndReload (env : Env) (db : DB) (s0 : FormState)
    (row : UserProfile) (calls : List Call) : FormState × DB × List Call :=
  match env.upsertError row with
  | some msg =>
    ({ s0 with error := msg }, db, calls ++ [Call.profilesUpsert row])
  | none =>
    let db2 : DB := { db with profiles := upsertRow db.profiles row }
    let pr := loadProfile env db2 { s0 with isEditing := false }
    (pr.1, db2, calls ++ Call.profilesUpsert row :: pr.2)

/-- UserForm.tsx handleSubmit (lines 72 to 100): clear the error, require
a user (throwing No user logged in otherwise), upload the pending avatar
file if any (aborting on upload failure), merge the owner id and resolved
avatar URL into the draft, upsert, and on success reload; every thrown
failure lands in the error field. -/
def handleSubmit (env : Env) (db : DB) (s : FormState) :
    FormState × DB × List Call :=
  match env.user with
  | none => ({ s with error := "No user logged in" }, db, [Call.getUser])
  | some uid =>
    match s.avatarFile with
    | some file =>
      match handleAvatarUpload env file with
      | UploadOutcome.noUser =>
        upsertAndReload env db { s with error := "" }
          { s.profile with id := uid, avatar_url := none }
          [Call.getUser, Call.getUser]
      | UploadOutcome.failed msg =>
        ({ s with error := msg }, db,
         [Call.getUser, Call.getUser,
          Call.storageUpload (avatarPath uid file.name)])
      | UploadOutcome.ok url path =>
        upsertAndReload env
          { db with objects := uploadObject db.objects path file.content }
          { s with error := "" }
          { s.profile with id := uid, avatar_url := some url }
          [Call.getUser, Call.getUser, Call.storageUpload path,
           Call.storageGetPublicUrl path]
    | none =>
      upsertAndReload env db { s with error := "" }
        { s.profile with id := uid, avatar_url := s.profile.avatar_url }
        [Call.getUser]

/-- The field names the generic handleChange path can receive from the
form inputs of UserForm.tsx (avatar_url has no input bound to it). -/
inductive FieldName where
  | first_name
  | last_name
  | date_of_birth
  | country
  | religion
  | blood_group
  | marital_status
  | institution
  | hobbies
deriving DecidableEq, Repr

/-- UserForm.tsx handleChange (lines 102 to 114): hobbies is split on
commas with each segment trimmed; every other field stores the raw value. -/
def handleChange (s : FormState) (name : FieldName) (value : String) :
    FormState :=
  match name with
  | FieldName.hobbies =>
    { s with profile := { s.profile with hobbies := splitHobbies value } }
  | FieldName.first_name =>
    { s with profile := { s.profile with first_name := value } }
  | FieldName.last_name =>
    { s with profile := { s.profile with last_name := value } }
  | FieldName.date_of_birth =>
    { s with profile := { s.profile with date_of_birth := value } }
  | FieldName.country =>
    { s with profile := { s.profile with country := value } }
  | FieldName.religion =>
    { s with profile := { s.profile with religion := value } }
  | FieldName.blood_group =>
    { s with profile := { s.profile with blood_group := value } }
  | FieldName.marital_status =>
    { s with profile := { s.profile with marital_status := value } }
  | FieldName.institution =>
    { s with profile := { s.profile with institution := value } }

/-- UserForm.tsx handleFileChange (lines 116 to 120): record the first
selected file as the pending avatar file; an empty selection changes
nothing. -/
def handleFileChange (s : FormState) (files : List AvatarFile) : FormState :=
  match files with
  | f :: _ => { s with avatarFile := some f }
  | [] => s

/-- What the hobbies row of ViewProfile renders. -/
inductive HobbiesRendering where
  | items (hs : List String)
  | noHobbies
deriving DecidableEq, Repr

/-- ViewProfile.tsx lines 119 to 127: render the bullet list when the
hobbies array is present and nonempty, the literal No hobbies specified
otherwise; an absent column behaves as the empty list here. -/
def renderHobbies (hobbies : List String) : HobbiesRendering :=
  if hobbies.length > 0 then HobbiesRendering.items hobbies
  else HobbiesRendering.noHobbies

/-- The draft merged with the owner id and the resolved avatar URL, the
row handleSubmit upserts on the success path (lines 80 to 91). -/
def mergedRow (env : Env) (uid : String) (s : FormState) : UserProfile :=
  { s.profile with
    id := uid
    avatar_url :=
      match s.avatarFile with
      | some f => some (env.publicUrl (avatarPath uid f.name))
      | none => s.profile.avatar_url }

/-- The failure a Save run reports, mirroring the branch structure of
handleSubmit: no user, then upload failure, then upsert failure; none
means Save succeeds. -/
def saveFailure (env : Env) (s : FormState) : Option String :=
  match env.user with
  | none => some "No user logged in"
  | some uid =>
    match s.avatarFile with
    | some file =>
      match env.uploadError (avatarPath uid file.name) file with
      | some msg => some msg
      | none => env.upsertError (mergedRow env uid s)
    | none => env.upsertError (mergedRow env uid s)

/-- Concrete fixtures used by the witness theorems. -/
def demoProfile : UserProfile :=
  { id := "u1", first_name := "Ada", last_name := "Lovelace"
  , date_of_birth := "1815-12-10", country := "UK", religion := ""
  , blood_group := "O+", marital_status := "single"
  , institution := "Analytical Engine Society"
  , hobbies := ["chess", "reading"]
  , avatar_url := some "https://cdn.example.org/old.png" }

/-- Environment where user u1 is signed in and every call succeeds. -/
def demoEnv : Env :=
  { user := some "u1"
  , publicUrl := fun path => "https://cdn.example.org/avatars/" ++ path
  , uploadError := fun _ _ => none
  , upsertError := fun _ => none }

/-- Environment where no user is signed in. -/
def envNoUser : Env := { demoEnv with user := none }

/-- Environment where the storage upload fails. -/
def envUploadFail : Env :=
  { demoEnv with uploadError := fun _ _ => some "upload failed" }

/-- Environment where the profiles upsert fails. -/
def envUpsertFail : Env :=
  { demoEnv with upsertError := fun _ => some "duplicate key" }

/-- A pending avatar file fixture. -/
def demoFile : AvatarFile := { name := "portrait.png", content := "bytes0" }

/-- A second avatar file fixture sharing the png extension. -/
def demoFile2 : AvatarFile := { name := "holiday.png", content := "bytes1" }

/-- A backend holding one stored row for u1 and no objects. -/
def demoDB : DB := { profiles := [("u1", demoProfile)], objects := [] }

/-- The empty backend. -/
def emptyDB : DB := { profiles := [], objects := [] }

/-- A draft state mid-edit with a pending avatar file. -/
def demoDraftState : FormState :=
  { profile := { demoProfile with id := "", institution := "Cambridge" }
  , isEditing := true, error := "", avatarFile := some demoFile }

/-- Fetching the id just upserted returns exactly the upserted row. -/
theorem fetchOne_upsertRow (ps : List (String × UserProfile))
    (row : UserProfile) : fetchOne (upsertRow ps row) row.id = some row := by
  simp [fetchOne, upsertRow, List.find?]

/-- C2: Update Field on hobbies splits the raw text on commas and trims
each segment, order preserved; on the input
"chess, reading,  hiking " this yields exactly
["chess", "reading", "hiking"]. -/
theorem hobbies_split_trims_and_preserves_order (s : FormState)
    (value : String) :
    (handleChange s FieldName.hobbies value).profile.hobbies
      = (jsSplit ',' value).map jsTrim ∧
    (handleChange s FieldName.hobbies "chess, reading,  hiking "
      ).profile.hobbies = ["chess", "reading", "hiking"] := by
  refine ⟨rfl, ?_⟩
  show splitHobbies "chess, reading,  hiking " = ["chess", "reading", "hiking"]
  decide

/-- C3: Update Field on hobbies applied to the empty string stores the
single-element sequence containing one empty string, not the empty
sequence. -/
theorem hobbies_split_empty_input (s : FormState) :
    (handleChange s FieldName.hobbies "").profile.hobbies = [""] ∧
    (handleChange s FieldName.hobbies "").profile.hobbies ≠ [] := by
  constructor
  · show splitHobbies "" = [""]
    decide
  · show splitHobbies "" ≠ []
    decide

/-- C4 counterexample: the sequence produced by splitting empty hobbies
input contains only empty strings, hence has zero non-empty entries, yet
the Read-Only View renders it as an enumerated list, not as the
No hobbies specified fallback. -/
theorem renderHobbies_all_empty_not_fallback :
    splitHobbies "" = [""] ∧
    (splitHobbies "").all (fun h => h == "") = true ∧
    renderHobbies (splitHobbies "") = HobbiesRendering.items [""] ∧
    renderHobbies (splitHobbies "") ≠ HobbiesRendering.noHobbies := by
  refine ⟨by decide, by decide, by decide, by decide⟩

/-- C4 amended: the Read-Only View renders the No hobbies specified
fallback exactly when the hobbies sequence has length zero; any nonempty
sequence, even one whose entries are all empty strings, is rendered as an
enumerated list of its entries. -/
theorem renderHobbies_fallback_iff_empty (hs : List String) :
    (renderHobbies hs = HobbiesRendering.noHobbies ↔ hs = []) ∧
    (hs ≠ [] → renderHobbies hs = HobbiesRendering.items hs) := by
  cases hs <;> simp [renderHobbies]

/-- C4 amended witness: the singleton list of one empty string is
nonempty, so it renders as the one-item enumerated list. -/
theorem renderHobbies_fallback_iff_empty_witness :
    ([""] : List String) ≠ [] ∧
    renderHobbies [""] = HobbiesRendering.items [""] :=
  ⟨by decide, (renderHobbies_fallback_iff_empty [""]).2 (by decide)⟩

/-- C5: when no authenticated user resolves, Save reports the
No user logged in failure, leaves the backend untouched, and the only
external call performed is the identity lookup itself: no profile-store
upsert and no object-store upload or URL resolution happens. -/
theorem save_no_user_no_store_calls (env : Env) (db : DB) (s : FormState)
    (h : env.user = none) :
    (handleSubmit env db s).1.error = "No user logged in" ∧
    (handleSubmit env db s).2.1 = db ∧
    (handleSubmit env db s).2.2 = [Call.getUser] := by
  simp [handleSubmit, h]

/-- C5 witness: the unauthenticated environment at the demo fixtures. -/
theorem save_no_user_no_store_calls_witness :
    (handleSubmit envNoUser demoDB demoDraftState).1.error
        = "No user logged in" ∧
    (handleSubmit envNoUser demoDB demoDraftState).2.1 = demoDB ∧
    (handleSubmit envNoUser demoDB demoDraftState).2.2 = [Call.getUser] :=
  save_no_user_no_store_calls envNoUser demoDB demoDraftState rfl

/-- C8: Load with a resolved user but no stored row returns the state
unchanged, so starting from the initial state the workflow stays in edit
mode with the all-default draft and an empty error. -/
theorem load_notfound_keeps_defaults (env : Env) (db : DB) (uid : String)
    (hu : env.user = some uid) (hnf : fetchOne db.profiles uid = none) :
    (loadProfile env db initialState).1 = initialState ∧
    (loadProfile env db initialState).1.isEditing = true ∧
    (loadProfile env db initialState).1.profile = initialProfile ∧
    (loadProfile env db initialState).1.error = "" := by
  refine ⟨?_, ?_, ?_, ?_⟩ <;> simp [loadProfile, hu, hnf, initialState]

/-- C8 witness: user u1 against the empty backend. -/
theorem load_notfound_keeps_defaults_witness :
    (loadProfile demoEnv emptyDB initialState).1 = initialState :=
  (load_notfound_keeps_defaults demoEnv emptyDB "u1" rfl rfl).1

/-- Load never touches the pending-file component of the state. -/
theorem loadProfile_avatarFile (env : Env) (db : DB) (s : FormState) :
    (loadProfile env db s).1.avatarFile = s.avatarFile := by
  cases hu : env.user with
  | none => simp [loadProfile, hu]
  | some uid =>
    cases hfo : fetchOne db.profiles uid <;> simp [loadProfile, hu, hfo]

/-- The upsert-then-reload tail of Save never touches the pending-file
component of the state. -/
theorem upsertAndReload_avatarFile (env : Env) (db : DB) (s0 : FormState)
    (row : UserProfile) (calls : List Call) :
    (upsertAndReload env db s0 row calls).1.avatarFile = s0.avatarFile := by
  cases hpe : env.upsertError row with
  | some msg => simp [upsertAndReload, hpe]
  | none => simp [upsertAndReload, hpe, loadProfile_avatarFile]

/-- C10: no Save run ever changes the pending-file component of the
state, whatever the environment and whatever the outcome, and only
Select Avatar File replaces it (with the first file of a nonempty
selection; an empty selection changes nothing). -/
theorem save_preserves_pending_file (env : Env) (db : DB) (s : FormState)
    (f : AvatarFile) (rest : List AvatarFile) :
    (handleSubmit env db s).1.avatarFile = s.avatarFile ∧
    (handleFileChange s (f :: rest)).avatarFile = some f ∧
    (handleFileChange s []).avatarFile = s.avatarFile := by
  refine ⟨?_, rfl, rfl⟩
  cases hu : env.user with
  | none => simp [handleSubmit, hu]
  | some uid =>
    cases hf : s.avatarFile with
    | none => simp [handleSubmit, hu, hf, upsertAndReload_avatarFile]
    | some file =>
      cases hup : handleAvatarUpload env file with
      | noUser =>
        simp [handleSubmit, hu, hf, hup, upsertAndReload_avatarFile]
      | failed msg => simp [handleSubmit, hu, hf, hup]
      | ok url path =>
        simp [handleSubmit, hu, hf, hup, upsertAndReload_avatarFile]

/-- C6: when the pending avatar upload fails, Save aborts: the backend,
its stored row for the owner included, is unchanged, no upsert call is
ever issued, and the upload failure message is reported. -/
theorem upload_failure_aborts_save (env : Env) (db : DB) (s : FormState)
    (uid : String) (file : AvatarFile) (msg : String)
    (hu : env.user = some uid) (hf : s.avatarFile = some file)
    (he : env.uploadError (avatarPath uid file.name) file = some msg) :
    (handleSubmit env db s).2.1 = db ∧
    fetchOne (handleSubmit env db s).2.1.profiles uid
      = fetchOne db.profiles uid ∧
    (handleSubmit env db s).1.error = msg ∧
    ∀ row, Call.profilesUpsert row ∉ (handleSubmit env db s).2.2 := by
  have hup : handleAvatarUpload env file = UploadOutcome.failed msg := by
    simp [handleAvatarUpload, hu, he]
  refine ⟨?_, ?_, ?_, ?_⟩ <;> simp [handleSubmit, hu, hf, hup]

/-- C6 witness: the failing-upload environment at the demo fixtures. -/
theorem upload_failure_aborts_save_witness :
    (handleSubmit envUploadFail demoDB demoDraftState).2.1 = demoDB ∧
    (handleSubmit envUploadFail demoDB demoDraftState).1.error
      = "upload failed" :=
  let h := upload_failure_aborts_save envUploadFail demoDB demoDraftState
    "u1" demoFile "upload failed" rfl rfl rfl
  ⟨h.1, h.2.2.1⟩

/-- C7: whenever Save fails, whether because no user resolves, the upload
fails, or the upsert fails, the workflow stays in edit mode, the
in-memory draft and the pending file are exactly as before the Save, and
the failure message is surfaced in the error field. -/
theorem failed_save_preserves_draft (env : Env) (db : DB) (s : FormState)
    (msg : String) (hfail : saveFailure env s = some msg)
    (hedit : s.isEditing = true) :
    (handleSubmit env db s).1.isEditing = true ∧
    (handleSubmit env db s).1.profile = s.profile ∧
    (handleSubmit env db s).1.avatarFile = s.avatarFile ∧
    (handleSubmit env db s).1.error = msg := by
  cases hu : env.user with
  | none =>
    have hm : "No user logged in" = msg := by
      simpa [saveFailure, hu] using hfail
    subst hm
    refine ⟨?_, ?_, ?_, ?_⟩ <;> simp [handleSubmit, hu, hedit]
  | some uid =>
    cases hf : s.avatarFile with
    | some file =>
      cases he : env.uploadError (avatarPath uid file.name) file with
      | some m =>
        have hm : m = msg := by simpa [saveFailure, hu, hf, he] using hfail
        have hup : handleAvatarUpload env file = UploadOutcome.failed m := by
          simp [handleAvatarUpload, hu, he]
        subst hm
        refine ⟨?_, ?_, ?_, ?_⟩ <;> simp [handleSubmit, hu, hf, hup, hedit]
      | none =>
        have hpe : env.upsertError (mergedRow env uid s) = some msg := by
          simpa [saveFailure, hu, hf, he] using hfail
        have hup : handleAvatarUpload env file
            = UploadOutcome.ok (env.publicUrl (avatarPath uid file.name))
              (avatarPath uid file.name) := by
          simp [handleAvatarUpload, hu, he]
        have hrow : ({ s.profile with
            id := uid,
            avatar_url :=
              some (env.publicUrl (avatarPath uid file.name)) } :
            UserProfile) = mergedRow env uid s := by
          simp [mergedRow, hf]
        refine ⟨?_, ?_, ?_, ?_⟩ <;>
          simp [handleSubmit, hu, hf, hup, hrow, upsertAndReload, hpe, hedit]
    | none =>
      have hpe : env.upsertError (mergedRow env uid s) = some msg := by
        simpa [saveFailure, hu, hf] using hfail
      have hrow : ({ s.profile with
          id := uid,
          avatar_url := s.profile.avatar_url } : UserProfile)
          = mergedRow env uid s := by
        simp [mergedRow, hf]
      refine ⟨?_, ?_, ?_, ?_⟩ <;>
        simp [handleSubmit, hu, hf, hrow, upsertAndReload, hpe, hedit]

/-- C7 witness: an upsert-rejecting environment at the demo fixtures. -/
theorem failed_save_preserves_draft_witness :
    (handleSubmit envUpsertFail demoDB demoDraftState).1.isEditing = true ∧
    (handleSubmit envUpsertFail demoDB demoDraftState).1.profile
      = demoDraftState.profile ∧
    (handleSubmit envUpsertFail demoDB demoDraftState).1.error
      = "duplicate key" :=
  let h := failed_save_preserves_draft envUpsertFail demoDB demoDraftState
    "duplicate key" rfl rfl
  ⟨h.1, h.2.1, h.2.2.2⟩

/-- Every call already recorded before the upsert step survives into the
final call list of the upsert-then-reload tail. -/
theorem mem_upsertAndReload_calls (env : Env) (db : DB) (s0 : FormState)
    (row : UserProfile) (calls : List Call) (c : Call) (hc : c ∈ calls) :
    c ∈ (upsertAndReload env db s0 row calls).2.2 := by
  cases hpe : env.upsertError row with
  | some msg =>
    simp only [upsertAndReload, hpe, List.mem_append]
    exact Or.inl hc
  | none =>
    simp only [upsertAndReload, hpe, List.mem_append]
    exact Or.inl hc

/-- C9: the avatar upload path depends only on the owner id and the
extension of the file name, so two files with the same extension are
uploaded to the identical path for a given owner; uploading twice to that
path overwrites the object rather than accumulating a second one; and a
Save with a pending file does issue its storage upload at exactly this
path. -/
theorem avatar_path_deterministic (uid : String) (f1 f2 : AvatarFile)
    (hext : fileExt f1.name = fileExt f2.name) :
    avatarPath uid f1.name = avatarPath uid f2.name ∧
    (∀ objs c1 c2,
      uploadObject (uploadObject objs (avatarPath uid f1.name) c1)
          (avatarPath uid f2.name) c2
        = uploadObject objs (avatarPath uid f2.name) c2) ∧
    (∀ env db s, env.user = some uid → s.avatarFile = some f1 →
      Call.storageUpload (avatarPath uid f1.name)
        ∈ (handleSubmit env db s).2.2) := by
  have hpath : avatarPath uid f1.name = avatarPath uid f2.name := by
    simp [avatarPath, hext]
  refine ⟨hpath, ?_, ?_⟩
  · intro objs c1 c2
    rw [hpath]
    simp [uploadObject, List.filter_filter]
  · intro env db s hu hf
    cases he : env.uploadError (avatarPath uid f1.name) f1 with
    | some m =>
      have hup : handleAvatarUpload env f1 = UploadOutcome.failed m := by
        simp [handleAvatarUpload, hu, he]
      simp [handleSubmit, hu, hf, hup]
    | none =>
      have hup : handleAvatarUpload env f1
          = UploadOutcome.ok (env.publicUrl (avatarPath uid f1.name))
            (avatarPath uid f1.name) := by
        simp [handleAvatarUpload, hu, he]
      simp only [handleSubmit, hu, hf, hup]
      exact mem_upsertAndReload_calls _ _ _ _ _ _ (by simp)

/-- C9 witness: the two png fixtures for owner u1, and the storage upload
call actually emitted by a Save at the demo fixtures. -/
theorem avatar_path_deterministic_witness :
    avatarPath "u1" demoFile.name = avatarPath "u1" demoFile2.name ∧
    Call.storageUpload (avatarPath "u1" demoFile.name)
      ∈ (handleSubmit demoEnv demoDB demoDraftState).2.2 :=
  let h := avatar_path_deterministic "u1" demoFile demoFile2 (by decide)
  ⟨h.1, h.2.2 demoEnv demoDB demoDraftState rfl rfl⟩

/-- Core of the Save-then-Load round trip: on a fully successful Save the
reloaded draft is exactly the merged row, that row is what the store now
returns for the owner id, and the workflow has left edit mode. -/
theorem save_success_core (env : Env) (db : DB) (s : FormState)
    (uid : String) (hu : env.user = some uid)
    (hupload : ∀ f, s.avatarFile = some f →
      env.uploadError (avatarPath uid f.name) f = none)
    (hupsert : env.upsertError (mergedRow env uid s) = none) :
    (handleSubmit env db s).1.profile = mergedRow env uid s ∧
    fetchOne (handleSubmit env db s).2.1.profiles uid
      = some (mergedRow env uid s) ∧
    (handleSubmit env db s).1.isEditing = false := by
  have hid : (mergedRow env uid s).id = uid := by simp [mergedRow]
  have hfetch : ∀ ps, fetchOne (upsertRow ps (mergedRow env uid s)) uid
      = some (mergedRow env uid s) := by
    intro ps
    rw [← hid]
    exact fetchOne_upsertRow ps _
  cases hf : s.avatarFile with
  | none =>
    have hrow : ({ s.profile with
        id := uid,
        avatar_url := s.profile.avatar_url } : UserProfile)
        = mergedRow env uid s := by
      simp [mergedRow, hf]
    refine ⟨?_, ?_, ?_⟩ <;>
      simp [handleSubmit, hu, hf, hrow, upsertAndReload, hupsert,
        loadProfile, hfetch]
  | some file =>
    have he := hupload file hf
    have hup : handleAvatarUpload env file
        = UploadOutcome.ok (env.publicUrl (avatarPath uid file.name))
          (avatarPath uid file.name) := by
      simp [handleAvatarUpload, hu, he]
    have hrow : ({ s.profile with
        id := uid,
        avatar_url := some (env.publicUrl (avatarPath uid file.name)) } :
        UserProfile) = mergedRow env uid s := by
      simp [mergedRow, hf]
    refine ⟨?_, ?_, ?_⟩ <;>
      simp [handleSubmit, hu, hf, hup, hrow, upsertAndReload, hupsert,
        loadProfile, hfetch]

/-- C1: for any draft, a fully successful Save followed by the Load it
triggers yields a profile equal to the merged row, field for field equal
to the draft except that the id is the owner id and the avatar URL is the
object store's resolved public URL exactly when a pending file was
uploaded during that Save (it is the draft's own avatar URL otherwise). -/
theorem save_then_load_roundtrip (env : Env) (db : DB) (s : FormState)
    (uid : String) (hu : env.user = some uid)
    (hupload : ∀ f, s.avatarFile = some f →
      env.uploadError (avatarPath uid f.name) f = none)
    (hupsert : env.upsertError (mergedRow env uid s) = none) :
    (handleSubmit env db s).1.profile = mergedRow env uid s ∧
    fetchOne (handleSubmit env db s).2.1.profiles uid
      = some (mergedRow env uid s) ∧
    (handleSubmit env db s).1.isEditing = false ∧
    ((mergedRow env uid s).id = uid ∧
     (mergedRow env uid s).first_name = s.profile.first_name ∧
     (mergedRow env uid s).last_name = s.profile.last_name ∧
     (mergedRow env uid s).date_of_birth = s.profile.date_of_birth ∧
     (mergedRow env uid s).country = s.profile.country ∧
     (mergedRow env uid s).religion = s.profile.religion ∧
     (mergedRow env uid s).blood_group = s.profile.blood_group ∧
     (mergedRow env uid s).marital_status = s.profile.marital_status ∧
     (mergedRow env uid s).institution = s.profile.institution ∧
     (mergedRow env uid s).hobbies = s.profile.hobbies) ∧
    (∀ f, s.avatarFile = some f →
      (mergedRow env uid s).avatar_url
        = some (env.publicUrl (avatarPath uid f.name))) ∧
    (s.avatarFile = none →
      (mergedRow env uid s).avatar_url = s.profile.avatar_url) := by
  obtain ⟨h1, h2, h3⟩ := save_success_core env db s uid hu hupload hupsert
  refine ⟨h1, h2, h3, ?_, ?_, ?_⟩
  · refine ⟨?_, ?_, ?_, ?_, ?_, ?_, ?_, ?_, ?_, ?_⟩ <;> simp [mergedRow]
  · intro f hf
    simp [mergedRow, hf]
  · intro hf
    simp [mergedRow, hf]

/-- C1 witness: the all-success environment at the demo fixtures, whose
pending png for owner u1 resolves to the demo public URL. -/
theorem save_then_load_roundtrip_witness :
    (handleSubmit demoEnv demoDB demoDraftState).1.profile
      = mergedRow demoEnv "u1" demoDraftState ∧
    (handleSubmit demoEnv demoDB demoDraftState).1.profile.avatar_url
      = some "https://cdn.example.org/avatars/u1/avatar.png" := by
  have h := save_then_load_roundtrip demoEnv demoDB demoDraftState "u1" rfl
    (fun _ _ => rfl) rfl
  refine ⟨h.1, ?_⟩
  rw [h.1]
  rfl

end WebForm
